import Mathlib

/-!
Verification development for the distance-finder front end
(src/src/App.jsx).  The two pieces with logic are embedded here:

* `getDistance` — the Distance Query Adapter: given the outcome of the
  fetch/parse layer, validate the upstream payload and derive the three
  rounded figures, or fail.
* `computeBatch` / `computeBatchOutcomes` — the core of `handleSubmit`:
  build one record per source (keeping the original untrimmed source
  string), then flag the records whose `distanceKm` equals the minimum
  over the records the code treats as valid.

JavaScript numbers are modelled as exact rationals; the places where the
code can see `NaN`, `Infinity` or `undefined` (namely `Math.min` over the
collected distances and the strict-equality test against `minDistance`)
are modelled explicitly by `JsNum` and `Option`.
-/

namespace DistanceFind

/-- Result of a successful distance query, the three figures already
rounded to two decimals (`distanceKm`, `distanceMiles`, `durationMins`
in App.jsx). -/
structure DistanceQueryResult where
  distanceKm : ℚ
  distanceMiles : ℚ
  durationMins : ℚ
deriving DecidableEq

/-- Rounding to two decimal places, half up, as an exact-rational model of
`parseFloat(x.toFixed(2))` in App.jsx (ECMAScript toFixed picks the larger
candidate on a tie). -/
def round2 (x : ℚ) : ℚ := (⌊x * 100 + 1 / 2⌋ : ℚ) / 100

/-- One element of a row of the upstream JSON payload:
`{status, distance: {value}, duration: {value}}` with the distance in
meters and the duration in seconds. -/
structure ApiElement where
  status : String
  distanceValue : ℚ
  durationValue : ℚ
deriving DecidableEq

/-- One row of the upstream JSON payload. -/
structure ApiRow where
  elements : List ApiElement
deriving DecidableEq

/-- The parsed upstream JSON payload: `{status, rows}`. -/
structure ApiResponse where
  status : String
  rows : List ApiRow
deriving DecidableEq

/-- Outcome of `res.json()`: either a rejection carrying a message, or the
parsed payload. -/
inductive BodyResult where
  | parseFail (msg : String)
  | parsed (data : ApiResponse)
deriving DecidableEq

/-- Outcome of the `fetch` call.  `fetch` only rejects on network failure;
an HTTP error status still resolves, carried here as `httpOk = false`.
App.jsx never reads `res.ok` or `res.status`. -/
inductive FetchOutcome where
  | networkError (msg : String)
  | response (httpOk : Bool) (body : BodyResult)
deriving DecidableEq

/-- The two kinds of failure `getDistance` can surface: the explicit
route-not-found `Error` it throws itself, and any error propagated
unchanged from the transport or parse layer (including the `TypeError`
raised by reading a property of `undefined`). -/
inductive AdapterError where
  | routeNotFound (msg : String)
  | transportOrParse (msg : String)
deriving DecidableEq

/-- The `message` property of the thrown error, as read by the
`catch` clause of `handleSubmit`. -/
def AdapterError.message : AdapterError → String
  | .routeNotFound msg => msg
  | .transportOrParse msg => msg

/-- Message of the `TypeError` raised when `data.rows[0].elements[0]` does
not exist; the exact wording is environment dependent and no property here
depends on it. -/
def undefinedAccessMsg : String := "Cannot read properties of undefined"

/-- The route-not-found message built by `getDistance`. -/
def routeNotFoundMsg (sourceZip destZip : String) : String :=
  "No route found from " ++ sourceZip ++ " to " ++ destZip

/-- Embedding of `getDistance` of App.jsx.  The network and parse layer is
abstracted as the `net : FetchOutcome` argument.  The short-circuit of
`data.status !== "OK" || data.rows[0].elements[0].status !== "OK"` is kept:
a bad top-level status throws route-not-found before any row is touched,
while a good top-level status with no `rows[0].elements[0]` raises a
`TypeError` that propagates as an unclassified error. -/
def getDistance (sourceZip destZip : String) (net : FetchOutcome) :
    Except AdapterError DistanceQueryResult :=
  match net with
  | .networkError msg => .error (.transportOrParse msg)
  | .response _ (.parseFail msg) => .error (.transportOrParse msg)
  | .response _ (.parsed data) =>
    if data.status ≠ "OK" then
      .error (.routeNotFound (routeNotFoundMsg sourceZip destZip))
    else
      match data.rows.head?.bind (fun row => row.elements.head?) with
      | none => .error (.transportOrParse undefinedAccessMsg)
      | some element =>
        if element.status ≠ "OK" then
          .error (.routeNotFound (routeNotFoundMsg sourceZip destZip))
        else
          .ok { distanceKm := round2 (element.distanceValue / 1000),
                distanceMiles := round2 (element.distanceValue / 1000 * (621371 / 1000000)),
                durationMins := round2 (element.durationValue / 60) }

/-- Per-source record pushed onto `newResults` in `handleSubmit`:
`{source: zip, ...res}` on success (so `result` present, no `error`
field), `{source: zip, error: err.message}` on failure (no distance
fields, so reading `distanceKm` yields `undefined`, modelled by
`result = none`). -/
structure RawRecord where
  source : String
  result : Option DistanceQueryResult
  error : Option String
deriving DecidableEq

/-- A record of the published batch, after the final map adds `isMin`. -/
structure OutcomeRecord where
  source : String
  result : Option DistanceQueryResult
  error : Option String
  isMin : Bool
deriving DecidableEq

/-- JavaScript truthiness of `r.error`: a missing field (`undefined`) and
the empty string are both falsy, any other string is truthy.  This is the
test `!r.error` uses in `handleSubmit`. -/
def errTruthy (r : RawRecord) : Bool :=
  match r.error with
  | none => false
  | some msg => msg != ""

/-- Reading `r.distanceKm` off a record: `undefined` (`none`) on records
built from a failure. -/
def rawKm (r : RawRecord) : Option ℚ := r.result.map DistanceQueryResult.distanceKm

/-- A JavaScript number as far as `Math.min` and `===` are concerned
here: `NaN`, `Infinity`, or an ordinary (finite) value. -/
inductive JsNum where
  | nan
  | posInf
  | fin (q : ℚ)
deriving DecidableEq

/-- Model of `Math.min(...l)` where the spread list may hold `undefined`
entries (`none`): `undefined` coerces to `NaN`, which makes the result
`NaN`; the empty spread yields `Infinity`. -/
def jsMin (l : List (Option ℚ)) : JsNum :=
  if l.any (fun o => o.isNone) then .nan
  else
    match l.filterMap id with
    | [] => .posInf
    | q :: qs => .fin (qs.foldl min q)

/-- Model of the strict equality `r.distanceKm === minDistance`: false
whenever the left side is `undefined` or the right side is `NaN` or
`Infinity`. -/
def jsEqKm (o : Option ℚ) (m : JsNum) : Bool :=
  match o, m with
  | some q, .fin q0 => q == q0
  | _, _ => false

/-- The list `newResults.filter(r => !r.error).map(r => r.distanceKm)` of
`handleSubmit`. -/
def validDistances (rs : List RawRecord) : List (Option ℚ) :=
  (rs.filter (fun r => !errTruthy r)).map rawKm

/-- The value `minDistance = Math.min(...validDistances)` of
`handleSubmit`. -/
def minDistance (rs : List RawRecord) : JsNum := jsMin (validDistances rs)

/-- The final mapping of `handleSubmit`:
`finalResults = newResults.map(r => ({...r, isMin: !r.error && r.distanceKm === minDistance}))`. -/
def markMin (rs : List RawRecord) : List OutcomeRecord :=
  rs.map (fun r =>
    { source := r.source, result := r.result, error := r.error,
      isMin := !errTruthy r && jsEqKm (rawKm r) (minDistance rs) })

/-- Building one raw record from a source string and the adapter outcome,
as the try/catch of the loop body does; the `source` field keeps the
string exactly as given. -/
def buildRecord (zip : String) (outcome : Except AdapterError DistanceQueryResult) : RawRecord :=
  match outcome with
  | .ok res => { source := zip, result := some res, error := none }
  | .error e => { source := zip, result := none, error := some e.message }

/-- The batch pipeline of `handleSubmit` given the per-source adapter
outcomes: build the records in order, then annotate minima.  It is a total
function: no outcome combination makes it fail. -/
def computeBatchOutcomes
    (pairs : List (String × Except AdapterError DistanceQueryResult)) :
    List OutcomeRecord :=
  markMin (pairs.map (fun p => buildRecord p.1 p.2))

/-- The full `handleSubmit` core over a network environment `env` giving
the fetch outcome for each (origin, destination) query: each source is
queried trimmed against the trimmed destination, in order, and the record
keeps the original untrimmed source string. -/
def computeBatch (env : String → String → FetchOutcome) (sources : List String)
    (destZip : String) : List OutcomeRecord :=
  computeBatchOutcomes (sources.map (fun zip =>
    (zip, getDistance zip.trim destZip.trim (env zip.trim destZip.trim))))

/-- Equality of adapter outcomes is decidable (used only to evaluate
concrete instances). -/
instance instDecEqExcept {ε α : Type} [DecidableEq ε] [DecidableEq α] :
    DecidableEq (Except ε α) := fun x y =>
  match x, y with
  | .ok a, .ok b =>
    if h : a = b then isTrue (by rw [h]) else isFalse (fun hc => h (Except.ok.inj hc))
  | .ok _, .error _ => isFalse (fun hc => Except.noConfusion hc)
  | .error _, .ok _ => isFalse (fun hc => Except.noConfusion hc)
  | .error e, .error f =>
    if h : e = f then isTrue (by rw [h]) else isFalse (fun hc => h (Except.error.inj hc))

/-! ### Helper lemmas about the minimum computation -/

lemma foldl_min_le_init (qs : List ℚ) (q : ℚ) : qs.foldl min q ≤ q := by
  induction qs generalizing q with
  | nil => exact le_rfl
  | cons a l ih => exact le_trans (ih (min q a)) (min_le_left q a)

lemma foldl_min_le_mem (qs : List ℚ) : ∀ q x : ℚ, x ∈ qs → qs.foldl min q ≤ x := by
  induction qs with
  | nil => intro q x hx; cases hx
  | cons a l ih =>
    intro q x hx
    rcases List.mem_cons.mp hx with h | h
    · subst h
      exact le_trans (foldl_min_le_init l (min q x)) (min_le_right q x)
    · exact ih (min q a) x h

lemma foldl_min_mem (qs : List ℚ) : ∀ q : ℚ, qs.foldl min q = q ∨ qs.foldl min q ∈ qs := by
  induction qs with
  | nil => intro q; left; rfl
  | cons a l ih =>
    intro q
    rcases ih (min q a) with h | h
    · rcases min_choice q a with hqa | hqa
      · left; rw [List.foldl_cons, h, hqa]
      · right; rw [List.foldl_cons, h, hqa]; exact List.mem_cons_self a l
    · right; rw [List.foldl_cons]; exact List.mem_cons_of_mem a h

lemma jsMin_fin (l : List (Option ℚ)) (m : ℚ) (h : jsMin l = JsNum.fin m) :
    (∀ o ∈ l, o.isSome) ∧ some m ∈ l ∧ ∀ q : ℚ, some q ∈ l → m ≤ q := by
  unfold jsMin at h
  split at h
  · exact absurd h (by simp)
  · rename_i hany
    have hsome : ∀ o ∈ l, o.isSome := by
      intro o ho
      rcases o with _ | q
      · exact absurd (List.any_eq_true.mpr ⟨none, ho, rfl⟩) hany
      · rfl
    refine ⟨hsome, ?_, ?_⟩
    · cases hfm : l.filterMap id with
      | nil => rw [hfm] at h; exact absurd h (by simp)
      | cons q0 qs =>
        rw [hfm] at h
        have hm : qs.foldl min q0 = m := JsNum.fin.inj h
        have : m ∈ q0 :: qs := by
          rcases foldl_min_mem qs q0 with h1 | h1
          · rw [← hm, h1]; exact List.mem_cons_self q0 qs
          · rw [← hm]; exact List.mem_cons_of_mem q0 (hm ▸ h1)
        have : m ∈ l.filterMap id := by rw [hfm]; exact this
        rcases List.mem_filterMap.mp this with ⟨o, ho, hid⟩
        rw [show o = some m from hid] at ho
        exact ho
    · intro q hq
      have hqf : q ∈ l.filterMap id := List.mem_filterMap.mpr ⟨some q, hq, rfl⟩
      cases hfm : l.filterMap id with
      | nil => rw [hfm] at hqf; cases hqf
      | cons q0 qs =>
        rw [hfm] at h hqf
        have hm : qs.foldl min q0 = m := JsNum.fin.inj h
        rcases List.mem_cons.mp hqf with h1 | h1
        · rw [← hm, h1]; exact foldl_min_le_init qs q0
        · rw [← hm]; exact foldl_min_le_mem qs q0 q h1

lemma jsMin_fin_of (l : List (Option ℚ)) (h1 : ∀ o ∈ l, o.isSome) (h2 : l ≠ []) :
    ∃ m, jsMin l = JsNum.fin m := by
  have hany : (l.any fun o => o.isNone) = false := by
    rw [List.any_eq_false]
    intro o ho
    rcases o with _ | q
    · exact absurd (h1 none ho) (by simp)
    · simp
  cases l with
  | nil => exact absurd rfl h2
  | cons o l0 =>
    rcases o with _ | q
    · exact absurd (h1 none (List.mem_cons_self none l0)) (by simp)
    · refine ⟨(l0.filterMap id).foldl min q, ?_⟩
      unfold jsMin
      rw [hany]
      simp [List.filterMap_cons]

lemma mem_markMin (rs : List RawRecord) (rec : OutcomeRecord) :
    rec ∈ markMin rs ↔ ∃ r ∈ rs, rec =
      { source := r.source, result := r.result, error := r.error,
        isMin := !errTruthy r && jsEqKm (rawKm r) (minDistance rs) } := by
  unfold markMin
  rw [List.mem_map]
  constructor
  · rintro ⟨r, hr, hrec⟩; exact ⟨r, hr, hrec.symm⟩
  · rintro ⟨r, hr, hrec⟩; exact ⟨r, hr, hrec.symm⟩

lemma mem_buildRecords (pairs : List (String × Except AdapterError DistanceQueryResult))
    (r : RawRecord) :
    r ∈ pairs.map (fun p => buildRecord p.1 p.2) ↔ ∃ p ∈ pairs, buildRecord p.1 p.2 = r :=
  List.mem_map

lemma buildRecord_result_some (zip : String)
    (outcome : Except AdapterError DistanceQueryResult) (res : DistanceQueryResult)
    (h : (buildRecord zip outcome).result = some res) :
    buildRecord zip outcome = { source := zip, result := some res, error := none } := by
  cases outcome with
  | ok r => simp [buildRecord] at h ⊢; exact h
  | error e => simp [buildRecord] at h

lemma errTruthy_none (r : RawRecord) (h : r.error = none) : errTruthy r = false := by
  unfold errTruthy
  rw [h]

lemma rawKm_mem_validDistances (rs : List RawRecord) (r : RawRecord)
    (hr : r ∈ rs) (he : errTruthy r = false) : rawKm r ∈ validDistances rs := by
  unfold validDistances
  exact List.mem_map.mpr ⟨r, List.mem_filter.mpr ⟨hr, by rw [he]; rfl⟩, rfl⟩

lemma computeBatchOutcomes_length
    (pairs : List (String × Except AdapterError DistanceQueryResult)) :
    (computeBatchOutcomes pairs).length = pairs.length := by
  simp [computeBatchOutcomes, markMin]

lemma computeBatchOutcomes_sources
    (pairs : List (String × Except AdapterError DistanceQueryResult)) :
    (computeBatchOutcomes pairs).map (fun rec => rec.source) = pairs.map (fun p => p.1) := by
  unfold computeBatchOutcomes markMin
  rw [List.map_map, List.map_map]
  apply List.map_congr_left
  intro p _
  cases hp : p.2 <;> simp [Function.comp, buildRecord, hp]

lemma jsEqKm_none (m : JsNum) : jsEqKm none m = false := by
  cases m <;> rfl

lemma jsEqKm_true (o : Option ℚ) (m : JsNum) (h : jsEqKm o m = true) :
    ∃ q : ℚ, o = some q ∧ m = JsNum.fin q := by
  cases o with
  | none => rw [jsEqKm_none] at h; cases h
  | some q =>
    cases m with
    | nan => simp [jsEqKm] at h
    | posInf => simp [jsEqKm] at h
    | fin q0 =>
      refine ⟨q0, ?_, rfl⟩
      simp only [jsEqKm, beq_iff_eq] at h
      rw [h]

lemma rawKm_some (r : RawRecord) (q : ℚ) (h : rawKm r = some q) :
    ∃ res, r.result = some res ∧ res.distanceKm = q := by
  unfold rawKm at h
  cases hres : r.result with
  | none => rw [hres] at h; cases h
  | some res => rw [hres] at h; exact ⟨res, rfl, Option.some.inj h⟩

lemma markMin_mem_of (rs : List RawRecord) (r : RawRecord) (hr : r ∈ rs) :
    ∃ rec ∈ markMin rs, rec.result = r.result ∧ rec.error = r.error ∧
      rec.isMin = (!errTruthy r && jsEqKm (rawKm r) (minDistance rs)) :=
  ⟨_, (mem_markMin rs _).mpr ⟨r, hr, rfl⟩, rfl, rfl, rfl⟩

lemma computeBatchOutcomes_getElem
    (pairs : List (String × Except AdapterError DistanceQueryResult)) (i : ℕ)
    (p : String × Except AdapterError DistanceQueryResult) (hp : pairs[i]? = some p) :
    (computeBatchOutcomes pairs)[i]? = some
      { source := (buildRecord p.1 p.2).source,
        result := (buildRecord p.1 p.2).result,
        error := (buildRecord p.1 p.2).error,
        isMin := !errTruthy (buildRecord p.1 p.2) &&
          jsEqKm (rawKm (buildRecord p.1 p.2))
            (minDistance (pairs.map (fun q => buildRecord q.1 q.2))) } := by
  unfold computeBatchOutcomes markMin
  rw [List.getElem?_map, List.getElem?_map, hp]
  rfl

lemma except_ok_ne_error {ε α : Type} (a : α) (e : ε) :
    (Except.ok a : Except ε α) ≠ Except.error e := fun h => Except.noConfusion h

/-! ### Claim theorems -/

/-- C7: for any adapter outcomes at the four (indeed any) positions, the
batch has exactly one record per source, in the original input order; a
failure at one position never suppresses the records of later positions
(the embedding is a total function over all outcome mixes, so the batch
always carries one record per input source). -/
theorem c7_order_preserved (env : String → String → FetchOutcome)
    (sources : List String) (destZip : String) :
    (computeBatch env sources destZip).length = sources.length ∧
    (computeBatch env sources destZip).map (fun rec => rec.source) = sources := by
  constructor
  · rw [computeBatch, computeBatchOutcomes_length, List.length_map]
  · simp only [computeBatch, computeBatchOutcomes_sources, List.map_map]
    have h : ∀ z ∈ sources,
        ((fun p : String × Except AdapterError DistanceQueryResult => p.1) ∘
          fun zip => (zip, getDistance zip.trim destZip.trim (env zip.trim destZip.trim))) z = z :=
      fun z _ => rfl
    rw [List.map_congr_left h]
    simp

/-- C2: a batch in which all four (indeed all) adapter calls fail yields
exactly one record per call, each with its error message set and no
result, and no record carries isMin = true.  The pipeline is a total
function, so no outcome combination can make it raise. -/
theorem c2_all_failures
    (pairs : List (String × Except AdapterError DistanceQueryResult))
    (hfail : ∀ p ∈ pairs, ∃ e, p.2 = Except.error e) :
    (computeBatchOutcomes pairs).length = pairs.length ∧
    (∀ rec ∈ computeBatchOutcomes pairs,
      rec.result = none ∧ rec.error ≠ none ∧ rec.isMin = false) ∧
    ∀ i : ℕ, ∀ p : String × Except AdapterError DistanceQueryResult,
      ∀ e : AdapterError, pairs[i]? = some p → p.2 = Except.error e →
        (computeBatchOutcomes pairs)[i]? = some
          { source := p.1, result := none, error := some e.message, isMin := false } := by
  refine ⟨computeBatchOutcomes_length pairs, ?_, ?_⟩
  · intro rec hrec
    rcases (mem_markMin _ rec).mp hrec with ⟨r, hr, heq⟩
    rcases (mem_buildRecords pairs r).mp hr with ⟨p, hp, hbr⟩
    rcases hfail p hp with ⟨e, he⟩
    have hrdef : r = { source := p.1, result := none, error := some e.message } := by
      rw [← hbr, he]; rfl
    have hkm : rawKm r = none := by rw [hrdef]; rfl
    subst heq
    refine ⟨by rw [hrdef], by rw [hrdef]; simp, ?_⟩
    simp [hkm, jsEqKm_none]
  · intro i p e hp he
    rw [computeBatchOutcomes_getElem pairs i p hp]
    have hbr : buildRecord p.1 p.2 = { source := p.1, result := none, error := some e.message } := by
      rw [he]; rfl
    rw [hbr]
    simp [rawKm, jsEqKm_none]

/-- C9: in every batch, every record has exactly one of result and error
present, and isMin is true only on a record whose result is present and
whose distanceKm is least among all result-present records of the
batch. -/
theorem c9_record_invariants
    (pairs : List (String × Except AdapterError DistanceQueryResult)) :
    ∀ rec ∈ computeBatchOutcomes pairs,
      ((rec.result ≠ none ∧ rec.error = none) ∨ (rec.result = none ∧ rec.error ≠ none)) ∧
      (rec.isMin = true → ∃ res, rec.result = some res ∧
        ∀ rec2 ∈ computeBatchOutcomes pairs, ∀ res2, rec2.result = some res2 →
          res.distanceKm ≤ res2.distanceKm) := by
  intro rec hrec
  rcases (mem_markMin _ rec).mp hrec with ⟨r, hr, heq⟩
  rcases (mem_buildRecords pairs r).mp hr with ⟨p, hp, hbr⟩
  constructor
  · cases hpe : p.2 with
    | ok res =>
      have hrdef : r = { source := p.1, result := some res, error := none } := by
        rw [← hbr, hpe]; rfl
      rw [heq, hrdef]
      left; simp
    | error e =>
      have hrdef : r = { source := p.1, result := none, error := some e.message } := by
        rw [← hbr, hpe]; rfl
      rw [heq, hrdef]
      right; simp
  · intro hmin
    have hism : (!errTruthy r &&
        jsEqKm (rawKm r) (minDistance (pairs.map (fun p => buildRecord p.1 p.2)))) = true := by
      rw [heq] at hmin; exact hmin
    rw [Bool.and_eq_true] at hism
    rcases hism with ⟨_, heqkm⟩
    rcases jsEqKm_true _ _ heqkm with ⟨q, hkm, hmd⟩
    rcases rawKm_some r q hkm with ⟨res, hres, hresq⟩
    refine ⟨res, by rw [heq]; exact hres, ?_⟩
    intro rec2 hrec2 res2 hres2
    rcases (mem_markMin _ rec2).mp hrec2 with ⟨r2, hr2, heq2⟩
    rcases (mem_buildRecords pairs r2).mp hr2 with ⟨p2, hp2, hbr2⟩
    have hr2res : r2.result = some res2 := by rw [heq2] at hres2; exact hres2
    have hr2def : r2 = { source := p2.1, result := some res2, error := none } := by
      rw [← hbr2]
      exact buildRecord_result_some p2.1 p2.2 res2 (by rw [hbr2]; exact hr2res)
    have hr2err : errTruthy r2 = false := errTruthy_none r2 (by rw [hr2def])
    have hmem : rawKm r2 ∈ validDistances (pairs.map (fun p => buildRecord p.1 p.2)) :=
      rawKm_mem_validDistances _ r2 hr2 hr2err
    have hkm2 : rawKm r2 = some res2.distanceKm := by rw [hr2def]; rfl
    have hfin := jsMin_fin _ q hmd
    have hle : q ≤ res2.distanceKm := hfin.2.2 res2.distanceKm (by rw [← hkm2]; exact hmem)
    rw [hresq]
    exact hle

/-- C3 (amended): in a batch in which every failed record carries a
nonempty error message, every successful record whose distanceKm is least
among the successful records (in particular every member of a tie for the
minimum) has isMin = true.  The restriction is needed because the code
tests the truthiness of r.error: a failure whose message is the empty
string passes the filter, contributes an undefined distance, turns the
minimum into NaN and unmarks every record. -/
theorem c3_ties_all_marked
    (pairs : List (String × Except AdapterError DistanceQueryResult))
    (hmsg : ∀ p ∈ pairs, ∀ e, p.2 = Except.error e → e.message ≠ "") :
    ∀ rec ∈ computeBatchOutcomes pairs, ∀ res, rec.result = some res →
      (∀ rec2 ∈ computeBatchOutcomes pairs, ∀ res2, rec2.result = some res2 →
        res.distanceKm ≤ res2.distanceKm) →
      rec.isMin = true := by
  intro rec hrec res hres hleast
  rcases (mem_markMin _ rec).mp hrec with ⟨r, hr, heq⟩
  rcases (mem_buildRecords pairs r).mp hr with ⟨p, hp, hbr⟩
  have hrres : r.result = some res := by rw [heq] at hres; exact hres
  have hrdef : r = { source := p.1, result := some res, error := none } := by
    rw [← hbr]
    exact buildRecord_result_some p.1 p.2 res (by rw [hbr]; exact hrres)
  have hrerr : errTruthy r = false := errTruthy_none r (by rw [hrdef])
  have hclean : ∀ o ∈ validDistances (pairs.map (fun p => buildRecord p.1 p.2)), o.isSome := by
    intro o ho
    unfold validDistances at ho
    rcases List.mem_map.mp ho with ⟨r1, hr1f, hro⟩
    rcases List.mem_filter.mp hr1f with ⟨hr1, hr1e⟩
    rcases (mem_buildRecords pairs r1).mp hr1 with ⟨p1, hp1, hb1⟩
    cases hpe : p1.2 with
    | ok res1 =>
      have h1 : r1.result = some res1 := by rw [← hb1, hpe]; rfl
      rw [← hro]
      unfold rawKm
      rw [h1]
      rfl
    | error e1 =>
      have hb1d : r1 = { source := p1.1, result := none, error := some e1.message } := by
        rw [← hb1, hpe]; rfl
      have ht : errTruthy r1 = true := by
        rw [hb1d]
        simp [errTruthy]
        exact hmsg p1 hp1 e1 hpe
      rw [ht] at hr1e
      cases hr1e
  have hkmr : rawKm r = some res.distanceKm := by unfold rawKm; rw [hrres]; rfl
  have hkmmem : some res.distanceKm ∈ validDistances (pairs.map (fun p => buildRecord p.1 p.2)) := by
    rw [← hkmr]
    exact rawKm_mem_validDistances _ r hr hrerr
  have hne : validDistances (pairs.map (fun p => buildRecord p.1 p.2)) ≠ [] :=
    List.ne_nil_of_mem hkmmem
  rcases jsMin_fin_of _ hclean hne with ⟨m, hfin⟩
  have hfacts := jsMin_fin _ m hfin
  have h1 : m ≤ res.distanceKm := hfacts.2.2 res.distanceKm hkmmem
  have h2 : res.distanceKm ≤ m := by
    rcases List.mem_map.mp hfacts.2.1 with ⟨r1, hr1f, hro⟩
    rcases List.mem_filter.mp hr1f with ⟨hr1, hr1e⟩
    have hr1err : errTruthy r1 = false := by
      cases he1 : errTruthy r1
      · rfl
      · rw [he1] at hr1e; cases hr1e
    rcases rawKm_some r1 m hro with ⟨res1, hres1, hres1m⟩
    rcases markMin_mem_of (pairs.map (fun p => buildRecord p.1 p.2)) r1 hr1 with
      ⟨rec1, hrec1, hrec1res, _, _⟩
    have := hleast rec1 hrec1 res1 (by rw [hrec1res]; exact hres1)
    rw [hres1m] at this
    exact this
  have hkm : res.distanceKm = m := le_antisymm h2 h1
  rw [heq]
  show (!errTruthy r && jsEqKm (rawKm r)
    (minDistance (pairs.map (fun p => buildRecord p.1 p.2)))) = true
  rw [hrerr, hkmr]
  unfold minDistance
  rw [hfin]
  simp [jsEqKm, beq_iff_eq, hkm]

/-- C3 counterexample: two successful records tie for the least distanceKm
(5 km each, against 7 km), but because the third call failed with an empty
error message, the code treats that record as error-free, its undefined
distance makes Math.min produce NaN, and no record at all is marked
isMin.  So it is not the case that every tied record has isMin = true. -/
theorem c3_counterexample :
    computeBatchOutcomes
      [("s1", Except.ok { distanceKm := 5, distanceMiles := 3.11, durationMins := 10 }),
       ("s2", Except.ok { distanceKm := 5, distanceMiles := 3.11, durationMins := 10 }),
       ("s3", Except.error (AdapterError.transportOrParse "")),
       ("s4", Except.ok { distanceKm := 7, distanceMiles := 4.35, durationMins := 12 })] =
      [{ source := "s1", result := some { distanceKm := 5, distanceMiles := 3.11, durationMins := 10 },
         error := none, isMin := false },
       { source := "s2", result := some { distanceKm := 5, distanceMiles := 3.11, durationMins := 10 },
         error := none, isMin := false },
       { source := "s3", result := none, error := some "", isMin := false },
       { source := "s4", result := some { distanceKm := 7, distanceMiles := 4.35, durationMins := 12 },
         error := none, isMin := false }] := by
  simp [computeBatchOutcomes, markMin, buildRecord, minDistance, validDistances, jsMin,
    errTruthy, rawKm, jsEqKm, AdapterError.message]

/-- C1: when all four adapter calls succeed and the four rounded distanceKm
values are pairwise distinct, exactly one of the four records has
isMin = true, and that record is one whose distanceKm is smallest among
the four. -/
theorem c1_unique_min (s1 s2 s3 s4 : String) (r1 r2 r3 r4 : DistanceQueryResult)
    (h12 : r1.distanceKm ≠ r2.distanceKm) (h13 : r1.distanceKm ≠ r3.distanceKm)
    (h14 : r1.distanceKm ≠ r4.distanceKm) (h23 : r2.distanceKm ≠ r3.distanceKm)
    (h24 : r2.distanceKm ≠ r4.distanceKm) (h34 : r3.distanceKm ≠ r4.distanceKm) :
    (computeBatchOutcomes
        [(s1, Except.ok r1), (s2, Except.ok r2), (s3, Except.ok r3), (s4, Except.ok r4)]).countP
      (fun rec => rec.isMin) = 1 ∧
    ∀ rec ∈ computeBatchOutcomes
        [(s1, Except.ok r1), (s2, Except.ok r2), (s3, Except.ok r3), (s4, Except.ok r4)],
      rec.isMin = true → ∃ res, rec.result = some res ∧
        res.distanceKm ≤ r1.distanceKm ∧ res.distanceKm ≤ r2.distanceKm ∧
        res.distanceKm ≤ r3.distanceKm ∧ res.distanceKm ≤ r4.distanceKm := by
  have hmin : minDistance
      [{ source := s1, result := some r1, error := none },
       { source := s2, result := some r2, error := none },
       { source := s3, result := some r3, error := none },
       { source := s4, result := some r4, error := none }] =
      JsNum.fin (min (min (min r1.distanceKm r2.distanceKm) r3.distanceKm) r4.distanceKm) := by
    simp [minDistance, validDistances, jsMin, errTruthy, rawKm]
  have hout : computeBatchOutcomes
      [(s1, Except.ok r1), (s2, Except.ok r2), (s3, Except.ok r3), (s4, Except.ok r4)] =
      [{ source := s1, result := some r1, error := none,
         isMin := r1.distanceKm == min (min (min r1.distanceKm r2.distanceKm) r3.distanceKm) r4.distanceKm },
       { source := s2, result := some r2, error := none,
         isMin := r2.distanceKm == min (min (min r1.distanceKm r2.distanceKm) r3.distanceKm) r4.distanceKm },
       { source := s3, result := some r3, error := none,
         isMin := r3.distanceKm == min (min (min r1.distanceKm r2.distanceKm) r3.distanceKm) r4.distanceKm },
       { source := s4, result := some r4, error := none,
         isMin := r4.distanceKm == min (min (min r1.distanceKm r2.distanceKm) r3.distanceKm) r4.distanceKm }] := by
    simp [computeBatchOutcomes, markMin, buildRecord, errTruthy, rawKm, hmin, jsEqKm]
  have hM2 := min_choice r1.distanceKm r2.distanceKm
  have hM3 := min_choice (min r1.distanceKm r2.distanceKm) r3.distanceKm
  have hM4 := min_choice (min (min r1.distanceKm r2.distanceKm) r3.distanceKm) r4.distanceKm
  have hle1 : min (min (min r1.distanceKm r2.distanceKm) r3.distanceKm) r4.distanceKm ≤ r1.distanceKm :=
    le_trans (min_le_left _ _) (le_trans (min_le_left _ _) (min_le_left _ _))
  have hle2 : min (min (min r1.distanceKm r2.distanceKm) r3.distanceKm) r4.distanceKm ≤ r2.distanceKm :=
    le_trans (min_le_left _ _) (le_trans (min_le_left _ _) (min_le_right _ _))
  have hle3 : min (min (min r1.distanceKm r2.distanceKm) r3.distanceKm) r4.distanceKm ≤ r3.distanceKm :=
    le_trans (min_le_left _ _) (min_le_right _ _)
  have hle4 : min (min (min r1.distanceKm r2.distanceKm) r3.distanceKm) r4.distanceKm ≤ r4.distanceKm :=
    min_le_right _ _
  have hMcases : min (min (min r1.distanceKm r2.distanceKm) r3.distanceKm) r4.distanceKm = r1.distanceKm ∨
      min (min (min r1.distanceKm r2.distanceKm) r3.distanceKm) r4.distanceKm = r2.distanceKm ∨
      min (min (min r1.distanceKm r2.distanceKm) r3.distanceKm) r4.distanceKm = r3.distanceKm ∨
      min (min (min r1.distanceKm r2.distanceKm) r3.distanceKm) r4.distanceKm = r4.distanceKm := by
    rcases hM4 with h4 | h4
    · rw [h4]
      rcases hM3 with h3 | h3
      · rw [h3]
        rcases hM2 with h2 | h2
        · rw [h2]; left; rfl
        · rw [h2]; right; left; rfl
      · rw [h3]; right; right; left; rfl
    · rw [h4]; right; right; right; rfl
  constructor
  · rw [hout]
    rcases hMcases with hM | hM | hM | hM
    · rw [hM]
      simp [List.countP_cons, beq_iff_eq, Ne.symm h12, Ne.symm h13, Ne.symm h14]
    · rw [hM]
      simp [List.countP_cons, beq_iff_eq, h12, Ne.symm h23, Ne.symm h24]
    · rw [hM]
      simp [List.countP_cons, beq_iff_eq, h13, h23, Ne.symm h34]
    · rw [hM]
      simp [List.countP_cons, beq_iff_eq, h14, h24, h34]
  · intro rec hrec hisM
    rw [hout] at hrec
    simp only [List.mem_cons, List.not_mem_nil, or_false] at hrec
    rcases hrec with h | h | h | h
    · refine ⟨r1, by rw [h], ?_⟩
      have : (r1.distanceKm == min (min (min r1.distanceKm r2.distanceKm) r3.distanceKm) r4.distanceKm) = true := by
        rw [h] at hisM; exact hisM
      have hkm := beq_iff_eq.mp this
      exact ⟨hkm.le.trans hle1, hkm.le.trans hle2, hkm.le.trans hle3, hkm.le.trans hle4⟩
    · refine ⟨r2, by rw [h], ?_⟩
      have : (r2.distanceKm == min (min (min r1.distanceKm r2.distanceKm) r3.distanceKm) r4.distanceKm) = true := by
        rw [h] at hisM; exact hisM
      have hkm := beq_iff_eq.mp this
      exact ⟨hkm.le.trans hle1, hkm.le.trans hle2, hkm.le.trans hle3, hkm.le.trans hle4⟩
    · refine ⟨r3, by rw [h], ?_⟩
      have : (r3.distanceKm == min (min (min r1.distanceKm r2.distanceKm) r3.distanceKm) r4.distanceKm) = true := by
        rw [h] at hisM; exact hisM
      have hkm := beq_iff_eq.mp this
      exact ⟨hkm.le.trans hle1, hkm.le.trans hle2, hkm.le.trans hle3, hkm.le.trans hle4⟩
    · refine ⟨r4, by rw [h], ?_⟩
      have : (r4.distanceKm == min (min (min r1.distanceKm r2.distanceKm) r3.distanceKm) r4.distanceKm) = true := by
        rw [h] at hisM; exact hisM
      have hkm := beq_iff_eq.mp this
      exact ⟨hkm.le.trans hle1, hkm.le.trans hle2, hkm.le.trans hle3, hkm.le.trans hle4⟩

/-- C4: a successful adapter call returns distanceKm = meters/1000,
distanceMiles = unrounded km times 0.621371, durationMins = seconds/60,
each rounded to two decimals independently; at distance 12345 m and
duration 678 s this gives 12.35 km, 7.67 miles, 11.30 minutes. -/
theorem c4_derived_figures (src dst : String) (ok : Bool) (dm ds : ℚ)
    (es : List ApiElement) (rws : List ApiRow) :
    getDistance src dst (FetchOutcome.response ok (BodyResult.parsed
      { status := "OK",
        rows := { elements := { status := "OK", distanceValue := dm, durationValue := ds } :: es } :: rws })) =
      Except.ok { distanceKm := round2 (dm / 1000),
                  distanceMiles := round2 (dm / 1000 * (621371 / 1000000)),
                  durationMins := round2 (ds / 60) } ∧
    getDistance "A" "B" (FetchOutcome.response true (BodyResult.parsed
      { status := "OK",
        rows := [{ elements := [{ status := "OK", distanceValue := 12345, durationValue := 678 }] }] })) =
      Except.ok { distanceKm := 12.35, distanceMiles := 7.67, durationMins := 11.30 } := by
  constructor
  · rfl
  · simp [getDistance, routeNotFoundMsg]
    norm_num [round2]

/-- C5 (amended): over successfully parsed responses that do contain a
first element of a first row, the adapter fails with exactly the
route-not-found message iff the top-level status or that element status
differs from OK, and returns the derived success result otherwise.  (A
parsed response with top-level status OK but no rows[0].elements[0] is
outside this scope: there the code raises a TypeError instead of
returning a result; see the counterexample.) -/
theorem c5_status_validation (src dst : String) (ok : Bool) (resp : ApiResponse)
    (element : ApiElement)
    (he : resp.rows.head?.bind (fun row => row.elements.head?) = some element) :
    ((getDistance src dst (FetchOutcome.response ok (BodyResult.parsed resp)) =
        Except.error (AdapterError.routeNotFound (routeNotFoundMsg src dst))) ↔
      (resp.status ≠ "OK" ∨ element.status ≠ "OK")) ∧
    (resp.status = "OK" → element.status = "OK" →
      getDistance src dst (FetchOutcome.response ok (BodyResult.parsed resp)) =
        Except.ok { distanceKm := round2 (element.distanceValue / 1000),
                    distanceMiles := round2 (element.distanceValue / 1000 * (621371 / 1000000)),
                    durationMins := round2 (element.durationValue / 60) }) := by
  simp only [getDistance]
  rw [he]
  by_cases hs : resp.status = "OK" <;> by_cases het : element.status = "OK" <;>
    simp [hs, het, except_ok_ne_error]

/-- C5 counterexample: the response with top-level status OK and an empty
rows array parses successfully, and neither of the two status conditions
of the claim holds, yet the adapter does not return a success result: the
rows[0].elements[0] access raises a TypeError, surfaced as an
unclassified error whose message is not the route-not-found message. -/
theorem c5_counterexample :
    getDistance "A" "B" (FetchOutcome.response true (BodyResult.parsed
      { status := "OK", rows := [] })) =
      Except.error (AdapterError.transportOrParse undefinedAccessMsg) ∧
    AdapterError.transportOrParse undefinedAccessMsg ≠
      AdapterError.routeNotFound (routeNotFoundMsg "A" "B") :=
  ⟨rfl, fun h => AdapterError.noConfusion h⟩

/-- C6 (amended): a network failure or a body parse failure propagates
verbatim as an unclassified error distinct from every route-not-found
error; the HTTP status is never inspected, so replacing a non-OK HTTP
status by an OK one never changes the outcome, and a non-OK HTTP response
with a parseable body is processed by body validation alone. -/
theorem c6_transport_passthrough (src dst msg : String) (ok : Bool) (body : BodyResult) :
    getDistance src dst (FetchOutcome.networkError msg) =
      Except.error (AdapterError.transportOrParse msg) ∧
    getDistance src dst (FetchOutcome.response ok (BodyResult.parseFail msg)) =
      Except.error (AdapterError.transportOrParse msg) ∧
    (∀ m : String, AdapterError.transportOrParse msg ≠ AdapterError.routeNotFound m) ∧
    getDistance src dst (FetchOutcome.response ok body) =
      getDistance src dst (FetchOutcome.response true body) := by
  refine ⟨rfl, rfl, fun m h => AdapterError.noConfusion h, ?_⟩
  cases body <;> rfl

/-- C6 counterexample: an adapter invocation whose HTTP status is non-OK
but whose body parses with status OK and a well-formed first element does
not produce any failure at all, let alone an unclassified one: it returns
a success result. -/
theorem c6_counterexample :
    getDistance "A" "B" (FetchOutcome.response false (BodyResult.parsed
      { status := "OK",
        rows := [{ elements := [{ status := "OK", distanceValue := 1000, durationValue := 60 }] }] })) =
      Except.ok { distanceKm := 1, distanceMiles := 0.62, durationMins := 1 } := by
  simp [getDistance, routeNotFoundMsg]
  norm_num [round2]

/-- C8: the record at every position keeps the original untrimmed source
string, while its result or error is exactly what the adapter yields when
invoked with the trimmed source and trimmed destination. -/
theorem c8_trim_and_source (env : String → String → FetchOutcome)
    (sources : List String) (destZip : String) (i : ℕ) (hi : i < sources.length) :
    ((computeBatch env sources destZip)[i]?.map (fun rec => rec.source)) =
      some (sources.get ⟨i, hi⟩) ∧
    ((computeBatch env sources destZip)[i]?.map (fun rec => rec.result)) =
      some (match getDistance (sources.get ⟨i, hi⟩).trim destZip.trim
          (env (sources.get ⟨i, hi⟩).trim destZip.trim) with
        | .ok res => some res
        | .error _ => none) ∧
    ((computeBatch env sources destZip)[i]?.map (fun rec => rec.error)) =
      some (match getDistance (sources.get ⟨i, hi⟩).trim destZip.trim
          (env (sources.get ⟨i, hi⟩).trim destZip.trim) with
        | .ok _ => none
        | .error e => some e.message) := by
  have hp : (sources.map (fun zip =>
      (zip, getDistance zip.trim destZip.trim (env zip.trim destZip.trim))))[i]? =
      some (sources.get ⟨i, hi⟩,
        getDistance (sources.get ⟨i, hi⟩).trim destZip.trim
          (env (sources.get ⟨i, hi⟩).trim destZip.trim)) := by
    rw [List.getElem?_map, List.getElem?_eq_getElem hi]
    rfl
  rw [computeBatch, computeBatchOutcomes_getElem _ i _ hp]
  cases ho : getDistance (sources.get ⟨i, hi⟩).trim destZip.trim
      (env (sources.get ⟨i, hi⟩).trim destZip.trim) with
  | ok res => simp [buildRecord, ho]
  | error e => simp [buildRecord, ho]

/-- C10: the batch computation is deterministic in the per-source adapter
outcomes: two runs over the same sources and destination whose adapter
outcomes agree at every source produce identical record sequences,
including every isMin flag, even if the network environments differ
elsewhere. -/
theorem c10_outcome_deterministic (env1 env2 : String → String → FetchOutcome)
    (sources : List String) (destZip : String)
    (h : ∀ zip ∈ sources,
      getDistance zip.trim destZip.trim (env1 zip.trim destZip.trim) =
        getDistance zip.trim destZip.trim (env2 zip.trim destZip.trim)) :
    computeBatch env1 sources destZip = computeBatch env2 sources destZip := by
  unfold computeBatch
  congr 1
  apply List.map_congr_left
  intro zip hz
  rw [h zip hz]

/-! ### Witnesses -/

/-- Witness for c1_unique_min at four distinct concrete distances. -/
theorem c1_unique_min_witness :
    ((1 : ℚ) ≠ 2 ∧ (1 : ℚ) ≠ 3 ∧ (1 : ℚ) ≠ 4 ∧ (2 : ℚ) ≠ 3 ∧ (2 : ℚ) ≠ 4 ∧ (3 : ℚ) ≠ 4) ∧
    ((computeBatchOutcomes
        [("a", Except.ok { distanceKm := 1, distanceMiles := 0.62, durationMins := 1 }),
         ("b", Except.ok { distanceKm := 2, distanceMiles := 1.24, durationMins := 2 }),
         ("c", Except.ok { distanceKm := 3, distanceMiles := 1.86, durationMins := 3 }),
         ("d", Except.ok { distanceKm := 4, distanceMiles := 2.49, durationMins := 4 })]).countP
      (fun rec => rec.isMin) = 1 ∧
    ∀ rec ∈ computeBatchOutcomes
        [("a", Except.ok { distanceKm := 1, distanceMiles := 0.62, durationMins := 1 }),
         ("b", Except.ok { distanceKm := 2, distanceMiles := 1.24, durationMins := 2 }),
         ("c", Except.ok { distanceKm := 3, distanceMiles := 1.86, durationMins := 3 }),
         ("d", Except.ok { distanceKm := 4, distanceMiles := 2.49, durationMins := 4 })],
      rec.isMin = true → ∃ res, rec.result = some res ∧
        res.distanceKm ≤ (1 : ℚ) ∧ res.distanceKm ≤ (2 : ℚ) ∧
        res.distanceKm ≤ (3 : ℚ) ∧ res.distanceKm ≤ (4 : ℚ)) := by
  refine ⟨⟨by norm_num, by norm_num, by norm_num, by norm_num, by norm_num, by norm_num⟩, ?_⟩
  exact c1_unique_min "a" "b" "c" "d" _ _ _ _ (by norm_num) (by norm_num) (by norm_num)
    (by norm_num) (by norm_num) (by norm_num)

/-- Witness for c2_all_failures on a concrete all-failure batch. -/
theorem c2_all_failures_witness :
    (∀ p ∈ ([("a", Except.error (AdapterError.routeNotFound "No route found from a to z")),
             ("b", Except.error (AdapterError.transportOrParse "Failed to fetch"))] :
        List (String × Except AdapterError DistanceQueryResult)), ∃ e, p.2 = Except.error e) ∧
    ((computeBatchOutcomes
        [("a", Except.error (AdapterError.routeNotFound "No route found from a to z")),
         ("b", Except.error (AdapterError.transportOrParse "Failed to fetch"))]).length = 2 ∧
     (∀ rec ∈ computeBatchOutcomes
        [("a", Except.error (AdapterError.routeNotFound "No route found from a to z")),
         ("b", Except.error (AdapterError.transportOrParse "Failed to fetch"))],
      rec.result = none ∧ rec.error ≠ none ∧ rec.isMin = false) ∧
     ∀ i : ℕ, ∀ p : String × Except AdapterError DistanceQueryResult,
      ∀ e : AdapterError,
        ([("a", Except.error (AdapterError.routeNotFound "No route found from a to z")),
          ("b", Except.error (AdapterError.transportOrParse "Failed to fetch"))] :
          List (String × Except AdapterError DistanceQueryResult))[i]? = some p →
        p.2 = Except.error e →
        (computeBatchOutcomes
          [("a", Except.error (AdapterError.routeNotFound "No route found from a to z")),
           ("b", Except.error (AdapterError.transportOrParse "Failed to fetch"))])[i]? =
          some { source := p.1, result := none, error := some e.message, isMin := false }) := by
  have hfail : ∀ p ∈ ([("a", Except.error (AdapterError.routeNotFound "No route found from a to z")),
      ("b", Except.error (AdapterError.transportOrParse "Failed to fetch"))] :
      List (String × Except AdapterError DistanceQueryResult)), ∃ e, p.2 = Except.error e := by
    intro p hp
    simp only [List.mem_cons, List.not_mem_nil, or_false] at hp
    rcases hp with h | h <;> subst h <;> exact ⟨_, rfl⟩
  exact ⟨hfail, c2_all_failures _ hfail⟩

/-- Witness for c3_ties_all_marked on a concrete two-way tie. -/
theorem c3_ties_all_marked_witness :
    (∀ p ∈ ([("a", Except.ok { distanceKm := 1, distanceMiles := 0.62, durationMins := 1 }),
             ("b", Except.ok { distanceKm := 1, distanceMiles := 0.62, durationMins := 1 })] :
        List (String × Except AdapterError DistanceQueryResult)),
      ∀ e, p.2 = Except.error e → e.message ≠ "") ∧
    (∀ rec ∈ computeBatchOutcomes
        [("a", Except.ok { distanceKm := 1, distanceMiles := 0.62, durationMins := 1 }),
         ("b", Except.ok { distanceKm := 1, distanceMiles := 0.62, durationMins := 1 })],
      ∀ res, rec.result = some res →
      (∀ rec2 ∈ computeBatchOutcomes
          [("a", Except.ok { distanceKm := 1, distanceMiles := 0.62, durationMins := 1 }),
           ("b", Except.ok { distanceKm := 1, distanceMiles := 0.62, durationMins := 1 })],
        ∀ res2, rec2.result = some res2 → res.distanceKm ≤ res2.distanceKm) →
      rec.isMin = true) := by
  have hmsg : ∀ p ∈ ([("a", Except.ok { distanceKm := 1, distanceMiles := 0.62, durationMins := 1 }),
      ("b", Except.ok { distanceKm := 1, distanceMiles := 0.62, durationMins := 1 })] :
      List (String × Except AdapterError DistanceQueryResult)),
      ∀ e, p.2 = Except.error e → e.message ≠ "" := by
    intro p hp e he
    simp only [List.mem_cons, List.not_mem_nil, or_false] at hp
    rcases hp with h | h <;> subst h <;> exact Except.noConfusion he
  exact ⟨hmsg, c3_ties_all_marked _ hmsg⟩

/-- Witness for c5_status_validation on a concrete bad-status response. -/
theorem c5_status_validation_witness :
    ((ApiResponse.mk "BAD"
        [ApiRow.mk [ApiElement.mk "OK" 1000 60]]).rows.head?.bind
          (fun row => row.elements.head?)) =
        some (ApiElement.mk "OK" 1000 60) ∧
    (((getDistance "A" "B" (FetchOutcome.response true (BodyResult.parsed
          (ApiResponse.mk "BAD" [ApiRow.mk [ApiElement.mk "OK" 1000 60]]))) =
        Except.error (AdapterError.routeNotFound (routeNotFoundMsg "A" "B"))) ↔
      (("BAD" : String) ≠ "OK" ∨ ("OK" : String) ≠ "OK")) ∧
     (("BAD" : String) = "OK" → ("OK" : String) = "OK" →
      getDistance "A" "B" (FetchOutcome.response true (BodyResult.parsed
          (ApiResponse.mk "BAD" [ApiRow.mk [ApiElement.mk "OK" 1000 60]]))) =
        Except.ok (DistanceQueryResult.mk (round2 (1000 / 1000))
          (round2 (1000 / 1000 * (621371 / 1000000))) (round2 (60 / 60))))) := by
  have he : ((ApiResponse.mk "BAD"
      [ApiRow.mk [ApiElement.mk "OK" 1000 60]]).rows.head?.bind
        (fun row => row.elements.head?)) =
      some (ApiElement.mk "OK" 1000 60) := rfl
  exact ⟨he, c5_status_validation "A" "B" true _ _ he⟩

/-- Witness for c8_trim_and_source at position 0 of a concrete batch. -/
theorem c8_trim_and_source_witness :
    0 < (["95131"] : List String).length ∧
    (((computeBatch (fun _ _ => FetchOutcome.networkError "offline") ["95131"] "60601")[0]?.map
        (fun rec => rec.source)) = some "95131" ∧
     ((computeBatch (fun _ _ => FetchOutcome.networkError "offline") ["95131"] "60601")[0]?.map
        (fun rec => rec.result)) = some none ∧
     ((computeBatch (fun _ _ => FetchOutcome.networkError "offline") ["95131"] "60601")[0]?.map
        (fun rec => rec.error)) = some (some "offline")) := by
  have hi : 0 < (["95131"] : List String).length := by norm_num
  exact ⟨hi, c8_trim_and_source (fun _ _ => FetchOutcome.networkError "offline") ["95131"] "60601" 0 hi⟩

/-- Witness for c9_record_invariants on a concrete one-failure batch. -/
theorem c9_record_invariants_witness :
    (({ source := "a", result := none, error := some "x", isMin := false } : OutcomeRecord) ∈
      computeBatchOutcomes [("a", Except.error (AdapterError.transportOrParse "x"))]) ∧
    ((((none : Option DistanceQueryResult) ≠ none ∧ (some "x" : Option String) = none) ∨
      ((none : Option DistanceQueryResult) = none ∧ (some "x" : Option String) ≠ none)) ∧
     (false = true → ∃ res, (none : Option DistanceQueryResult) = some res ∧
        ∀ rec2 ∈ computeBatchOutcomes [("a", Except.error (AdapterError.transportOrParse "x"))],
          ∀ res2, rec2.result = some res2 → res.distanceKm ≤ res2.distanceKm)) := by
  have hmem : ({ source := "a", result := none, error := some "x", isMin := false } : OutcomeRecord) ∈
      computeBatchOutcomes [("a", Except.error (AdapterError.transportOrParse "x"))] := by
    decide
  exact ⟨hmem, c9_record_invariants _ _ hmem⟩

/-- Witness for c10_outcome_deterministic: two different environments with
the same per-source adapter outcome give the same batch. -/
theorem c10_outcome_deterministic_witness :
    (∀ zip ∈ (["07305"] : List String),
      getDistance zip.trim "60601".trim (FetchOutcome.networkError "Failed to fetch") =
        getDistance zip.trim "60601".trim
          (FetchOutcome.response true (BodyResult.parseFail "Failed to fetch"))) ∧
    computeBatch (fun _ _ => FetchOutcome.networkError "Failed to fetch") ["07305"] "60601" =
      computeBatch (fun _ _ => FetchOutcome.response true (BodyResult.parseFail "Failed to fetch"))
        ["07305"] "60601" := by
  have h : ∀ zip ∈ (["07305"] : List String),
      getDistance zip.trim "60601".trim (FetchOutcome.networkError "Failed to fetch") =
        getDistance zip.trim "60601".trim
          (FetchOutcome.response true (BodyResult.parseFail "Failed to fetch")) :=
    fun zip _ => rfl
  exact ⟨h, c10_outcome_deterministic
    (fun _ _ => FetchOutcome.networkError "Failed to fetch")
    (fun _ _ => FetchOutcome.response true (BodyResult.parseFail "Failed to fetch"))
    ["07305"] "60601" h⟩

end DistanceFind
